import Mathlib

/-!
Verification of the support-orchestrator demo against its specification.

The repository implements a hub-and-spoke customer-support workflow: an
orchestrator agent fans out task requests to specialist agents (customer
data, issue search, reproduction, ticketing) over chat rooms, accumulates
their results, resolves a branch outcome and optionally escalates to a
ticket-filing specialist.

The deterministic pieces of the source (room routing, the specialists'
supported-intent tables, the mock browser-reproduction tool, the mock
Linear search tool) are embedded directly.  The dispatch / correlation /
branch-resolution protocol is executed at runtime by an LLM following the
prompt built in src/orchestrator/orchestrator.py; it has no deterministic
implementation in the repository, so those operations are modelled from
the specification (each such definition is marked "Modelled from the
spec:" in its doc comment).

Python strings are modelled as Lean `String` values; where case-insensitive
substring containment matters they are converted to `List Char` and
lowercased with `Char.toLower` (Python's `str.lower` on the ASCII names
used here agrees with `Char.toLower`).
-/

/-- Case-insensitive lowering of a string viewed as a character list,
mirroring Python's `str.lower()` on the ASCII identifiers used in the
source. -/
def lowerChars (s : List Char) : List Char := s.map Char.toLower

/-- Python's substring test `needle in hay`, on character lists. -/
def strContains (hay needle : List Char) : Bool := decide (needle <:+: hay)

/- -------------------------------------------------------------------
Room configuration and routing (src/orchestrator/orchestrator.py,
class SupportRoomConfig).
------------------------------------------------------------------- -/

/-- Room configuration for the hub-and-spoke topology: five room
identifiers (user, excel, github, browser, linear), from
`SupportRoomConfig.__init__`. -/
structure SupportRoomConfig where
  user_room_id : String
  excel_room_id : String
  github_room_id : String
  browser_room_id : String
  linear_room_id : String
deriving DecidableEq, Repr

/-- Embedding of `SupportRoomConfig.specialist_room_for`: lowercases the
specialist name and tests substring containment of the keywords
"excel", "github", "browser", "linear" in that order, returning the
corresponding room id, or `none` when no keyword occurs. -/
def SupportRoomConfig.specialist_room_for
    (cfg : SupportRoomConfig) (specialist : String) : Option String :=
  let name := lowerChars specialist.toList
  if strContains name "excel".toList then some cfg.excel_room_id
  else if strContains name "github".toList then some cfg.github_room_id
  else if strContains name "browser".toList then some cfg.browser_room_id
  else if strContains name "linear".toList then some cfg.linear_room_id
  else none

/- -------------------------------------------------------------------
Linear specialist mock tools (src/agents/linear/agent.py).
------------------------------------------------------------------- -/

/-- Shape of a Linear issue object as produced by the repository's
`create_linear_issue` mock (fields id, identifier, title, url, state,
priority, labels, created). -/
structure LinearIssue where
  id : String
  identifier : String
  title : String
  url : String
  state : String
  priority : Nat
  labels : List String
  created : Bool
deriving DecidableEq, Repr

/-- Shape of the JSON object returned by `search_linear_issues`.  The
JSON key "matches" is a reserved word in Lean, hence the field name
`issue_matches`. -/
structure LinearSearchResult where
  issue_matches : List LinearIssue
  query : String
  message : String
deriving DecidableEq, Repr

/-- Embedding of the mock tool `search_linear_issues` in
src/agents/linear/agent.py: ignores both arguments apart from echoing
the query, always returning empty matches with the fixed message
(the source comment reads "Return empty results for demo - simulates
no existing tickets").  JSON serialization of the returned object is
not modelled. -/
def search_linear_issues (query : String) (limit : Nat) : LinearSearchResult :=
  { issue_matches := [], query := query, message := "No matching issues found" }

/- -------------------------------------------------------------------
Protocol data model (spec section 3; wire format of spec section 6).
The dispatcher / correlator / branch resolver has no deterministic
implementation in the repository — at runtime an LLM executes the
workflow following the prompt built by `build_orchestrator_prompt` in
src/orchestrator/orchestrator.py — so the operations below are
modelled from the specification.
------------------------------------------------------------------- -/

/-- The four fixed specialist roles (spec Glossary): customer-data
(ExcelAgent), issue-search (GitHubSupportAgent), reproduction
(BrowserAgent), ticketing (LinearAgent). -/
inductive Role
  | customerData
  | issueSearch
  | reproduction
  | ticketing
deriving DecidableEq, Repr

/-- Error payload of a TaskResult: `{code, message}` (spec section 3). -/
structure TaskError where
  code : String
  message : String
deriving DecidableEq, Repr

/-- Result status of a TaskResult: `success` or `error`. -/
inductive TaskStatus
  | success
  | error
deriving DecidableEq, Repr

/-- Intent-specific success payloads carried by TaskResults, reduced to
the fields the branch resolver inspects: the entitlement verdict from
the customer-data lookup, the number of matches from the issue search,
the reproduction verdict, and a created-ticket identifier. -/
inductive Payload
  | customer (entitled : Bool)
  | issues (matchCount : Nat)
  | repro (reproduced : Bool)
  | ticket (identifier : String)
deriving DecidableEq, Repr

/-- Modelled from the spec: TaskResult (spec section 3).  Timestamps are
modelled as milliseconds on a single clock; `task_id` as a Nat (the
dispatcher mints ids from a monotonic counter). -/
structure TaskResult where
  task_id : Nat
  status : TaskStatus
  result : Option Payload
  error : Option TaskError
  started_at : Nat
  completed_at : Nat
  processing_ms : Nat
deriving DecidableEq, Repr

/-- Intent-specific request parameters, from the task_request templates
of the orchestrator prompt (Phase 1 and Branch B). -/
inductive Params
  | lookupCustomer (email : String)
  | searchBugReports (repo : String) (keywords : String) (labels : List String)
  | reproduceIssue (url : String) (steps : List String) (check_console : Bool)
  | createBugReport (title : String) (description : String) (priority : Nat)
      (labels : List String)
deriving DecidableEq, Repr

/-- Modelled from the spec: TaskRequest (spec section 3).  The constant
`protocol` tag "orchestrator/v1" is implicit in the type. -/
structure TaskRequest where
  task_id : Nat
  intent : String
  params : Params
  user_request : String
  dispatched_at : Nat
deriving DecidableEq, Repr

/-- An error TaskResult as synthesized by the dispatcher (send failure,
timeout) or returned by a specialist; status is always `error` and the
payload absent. -/
def errorResult (t : Nat) (code message : String) : TaskResult :=
  { task_id := t, status := .error, result := none,
    error := some { code := code, message := message },
    started_at := 0, completed_at := 0, processing_ms := 0 }

/-- Modelled from the spec: the specialist worker's timing contract
(spec sections 3 and 8, property P5; the "Timing" section of the
specialist prompts, which has no deterministic implementation in the
repository): a worker records `started_at` and `completed_at` from its
clock and sets `processing_ms` to their difference in milliseconds. -/
def mkTimedResult (t : Nat) (status : TaskStatus) (payload : Option Payload)
    (err : Option TaskError) (started_at completed_at : Nat) : TaskResult :=
  { task_id := t, status := status, result := payload, error := err,
    started_at := started_at, completed_at := completed_at,
    processing_ms := completed_at - started_at }

/-- The per-conversation map from specialist role to received TaskResult
(spec section 3, Conversation/Investigation state), with one optional
slot per role. -/
structure RoleResults where
  customerData : Option TaskResult
  issueSearch : Option TaskResult
  reproduction : Option TaskResult
  ticketing : Option TaskResult
deriving DecidableEq, Repr

/-- The empty result map of a fresh conversation. -/
def emptyResults : RoleResults := ⟨none, none, none, none⟩

/-- Lookup of the recorded result for a role. -/
def RoleResults.get (m : RoleResults) : Role → Option TaskResult
  | .customerData => m.customerData
  | .issueSearch => m.issueSearch
  | .reproduction => m.reproduction
  | .ticketing => m.ticketing

/-- Unconditional overwrite of a role's slot (internal primitive). -/
def RoleResults.set (m : RoleResults) (role : Role) (r : TaskResult) : RoleResults :=
  match role with
  | .customerData => { m with customerData := some r }
  | .issueSearch => { m with issueSearch := some r }
  | .reproduction => { m with reproduction := some r }
  | .ticketing => { m with ticketing := some r }

/-- Modelled from the spec: record-if-absent (spec section 5, the
required compare-and-set primitive): the first recorded result for a
role wins; a duplicate delivery is logged, never overwritten. -/
def RoleResults.record (m : RoleResults) (role : Role) (r : TaskResult) : RoleResults :=
  match m.get role with
  | some _ => m
  | none => m.set role r

/-- Modelled from the spec: ConversationHandle (spec section 3): the
awaited specialist roles, the task_id-to-role ownership map, and the
per-role result map. -/
structure ConversationHandle where
  awaited : List Role
  owner : List (Nat × Role)
  results : RoleResults
deriving DecidableEq, Repr

/-- The role that owns a task id in a conversation, if any. -/
def ownerOf (conv : ConversationHandle) (t : Nat) : Option Role :=
  (conv.owner.find? (fun p => p.1 == t)).map (fun p => p.2)

/-- Modelled from the spec: `onResult` (spec section 4.1): looks up the
owning role by task_id (unknown ids are a logged no-op) and records the
result under that role, first result winning. -/
def onResult (conv : ConversationHandle) (r : TaskResult) : ConversationHandle :=
  match ownerOf conv r.task_id with
  | none => conv
  | some role => { conv with results := conv.results.record role r }

/-- Modelled from the spec: the completion predicate (spec section 4.1):
all awaited roles have a recorded result. -/
def complete (conv : ConversationHandle) : Bool :=
  conv.awaited.all (fun role => (conv.results.get role).isSome)

/- -------------------------------------------------------------------
Dispatch / fan-out (spec section 4.1, modelled from the spec).
------------------------------------------------------------------- -/

/-- The fixed fan-out intent of each role, from the orchestrator
prompt's task_request templates. -/
def roleIntent : Role → String
  | .customerData => "lookup_customer"
  | .issueSearch => "search_bug_reports"
  | .reproduction => "reproduce_issue"
  | .ticketing => "create_bug_report"

/-- The role-appropriate request parameters, from the orchestrator
prompt's Phase 1 templates (repo and reproduction URL/steps are fixed
demo constants there). -/
def roleParams (role : Role) (email keywords : String) : Params :=
  match role with
  | .customerData => .lookupCustomer email
  | .issueSearch => .searchBugReports "roi-shikler-thenvoi/demo-product" keywords ["bug"]
  | .reproduction => .reproduceIssue "http://localhost:8888/mock_app.html"
      ["Click the Export to CSV button", "Observe the spinner behavior",
       "Wait 5 seconds to see if export completes"] true
  | .ticketing => .createBugReport "" "" 2 ["bug", "customer-reported"]

/-- A role-appropriate TaskRequest with a freshly minted task id. -/
def mkRequest (i : Nat) (role : Role) (email keywords text : String) (now : Nat) :
    TaskRequest :=
  { task_id := i, intent := roleIntent role, params := roleParams role email keywords,
    user_request := text, dispatched_at := now }

/-- Error message recorded for a role whose send failed. -/
def sendFailMessage : String := "specialist room unreachable"

/-- Modelled from the spec: the fan-out loop of `dispatch` — for each
role, mint a fresh task id from the counter, build the role-appropriate
request and send it to that role's room. -/
def dispatchSends (roomOf : Role → String) (email keywords text : String) (now : Nat) :
    Nat → List Role → List (Role × String × TaskRequest)
  | _, [] => []
  | i, role :: rest =>
      (role, roomOf role, mkRequest i role email keywords text now) ::
        dispatchSends roomOf email keywords text now (i + 1) rest

/-- The task_id-to-role ownership map minted during fan-out. -/
def dispatchOwner : Nat → List Role → List (Nat × Role)
  | _, [] => []
  | i, role :: rest => (i, role) :: dispatchOwner (i + 1) rest

/-- Modelled from the spec: a role whose send fails gets a recorded
`status=error` result (code SEND_FAILED) immediately, treated
identically to a role that later returns an error result. -/
def dispatchResults (sendOk : Role → Bool) :
    Nat → List Role → RoleResults → RoleResults
  | _, [], m => m
  | i, role :: rest, m =>
      dispatchResults sendOk (i + 1) rest
        (if sendOk role then m
         else m.record role (errorResult i "SEND_FAILED" sendFailMessage))

/-- Events observable during one `dispatch` call: sending a request to
a room, or waiting on / receiving a response. -/
inductive DispatchEvent
  | send (role : Role) (room : String) (req : TaskRequest)
  | waitForResult (role : Role)
deriving DecidableEq, Repr

/-- Whether an event is a send. -/
def DispatchEvent.isSend : DispatchEvent → Bool
  | .send _ _ _ => true
  | .waitForResult _ => false

/-- Outcome of one `dispatch` call: the per-role sends performed and the
conversation handle created. -/
structure DispatchOutcome where
  sends : List (Role × String × TaskRequest)
  conv : ConversationHandle
deriving DecidableEq, Repr

/-- The TaskRequests produced by a dispatch. -/
def DispatchOutcome.requests (d : DispatchOutcome) : List TaskRequest :=
  d.sends.map (fun s => s.2.2)

/-- The event trace of a dispatch call: one send event per role and
nothing else — `dispatch` returns without waiting on any response. -/
def DispatchOutcome.trace (d : DispatchOutcome) : List DispatchEvent :=
  d.sends.map (fun s => .send s.1 s.2.1 s.2.2)

/-- Modelled from the spec: `dispatch` (spec section 4.1): for each role
mints a fresh task_id, builds a role-appropriate TaskRequest and sends
it to that role's room; all sends happen before any waiting (the trace
holds only send events) and a failed send is recorded as a SEND_FAILED
error result for that role.  Free-text field extraction is an external
step (spec section 9, TextUnderstanding); its outputs `email` and
`keywords` are taken as inputs here. -/
def dispatch (roomOf : Role → String) (sendOk : Role → Bool) (roles : List Role)
    (email keywords text : String) (now : Nat) : DispatchOutcome :=
  { sends := dispatchSends roomOf email keywords text now 0 roles,
    conv := { awaited := roles, owner := dispatchOwner 0 roles,
              results := dispatchResults sendOk 0 roles emptyResults } }

/- -------------------------------------------------------------------
Timeout (spec section 5, modelled from the spec).
------------------------------------------------------------------- -/

/-- Error message of a synthesized timeout result. -/
def timeoutMessage : String :=
  "specialist did not respond before the conversation deadline"

/-- The task id dispatched to a role in this conversation (0 if none). -/
def taskIdFor (conv : ConversationHandle) (role : Role) : Nat :=
  ((conv.owner.find? (fun p => p.2 == role)).map (fun p => p.1)).getD 0

/-- Recording of synthesized TIMEOUT error results for every awaited
role, first result winning (roles that already have a result keep it). -/
def fillTimeouts (conv : ConversationHandle) (roles : List Role) (m : RoleResults) :
    RoleResults :=
  roles.foldl
    (fun acc role => acc.record role (errorResult (taskIdFor conv role) "TIMEOUT" timeoutMessage))
    m

/-- Modelled from the spec: deadline expiry (spec section 5): every
awaited role lacking a result is marked `status=error, code=TIMEOUT`;
branch resolution then proceeds with whatever is recorded.  The second
component is the list of requests issued on expiry — no retries are
issued automatically, so it is empty. -/
def expire (conv : ConversationHandle) : ConversationHandle × List TaskRequest :=
  ({ conv with results := fillTimeouts conv conv.awaited conv.results }, [])

/- -------------------------------------------------------------------
Branch resolver (spec section 4.2, modelled from the spec).
------------------------------------------------------------------- -/

/-- The three mutually exclusive branch outcomes. -/
inductive BranchOutcome
  | notEntitled
  | knownIssue
  | newIssue
deriving DecidableEq, Repr

/-- The entitlement verdict carried by a recorded customer-data result,
when present and usable. -/
def entitlementOf (res : Option TaskResult) : Option Bool :=
  match res with
  | some r =>
      match r.result with
      | some (.customer b) => some b
      | _ => none
  | none => none

/-- The match count carried by a recorded issue-search result, when
present and usable. -/
def issueMatchesOf (res : Option TaskResult) : Option Nat :=
  match res with
  | some r =>
      match r.result with
      | some (.issues n) => some n
      | _ => none
  | none => none

/-- Modelled from the spec: the pure branch resolver (spec section 4.2).
The three rules are tested in the fixed priority order Not-Entitled,
Known-Issue, New-Issue, first matching rule winning; the reproduction
result is non-gating (spec section 9).  Returns `none` in the cases the
spec flags as open (entitlement lookup failed or absent, or entitled
with an unusable issue-search result). -/
def resolve (m : RoleResults) : Option BranchOutcome :=
  match entitlementOf m.customerData with
  | some false => some .notEntitled
  | some true =>
      match issueMatchesOf m.issueSearch with
      | some (_ + 1) => some .knownIssue
      | some 0 => some .newIssue
      | none => none
  | none => none

/-- Description text of the escalation ticket, built around the
verbatim original customer request. -/
def escalationDescription (u : String) : String :=
  "Customer-reported bug: " ++ u

/-- Modelled from the spec: the escalation TaskRequest of the New-Issue
branch (spec sections 4.2 and 8, Scenario B): intent create_bug_report
for the ticketing role, with a non-empty description containing the
original user_request text. -/
def mkEscalationRequest (tid : Nat) (u : String) (now : Nat) : TaskRequest :=
  { task_id := tid, intent := "create_bug_report",
    params := .createBugReport "Customer-reported bug" (escalationDescription u) 2
      ["bug", "customer-reported"],
    user_request := u, dispatched_at := now }

/-- The `description` param of a request (empty for non-ticket params). -/
def descriptionOf (r : TaskRequest) : String :=
  match r.params with
  | .createBugReport _ d _ _ => d
  | _ => ""

/-- Modelled from the spec: the conditionally-dispatched escalation
(spec section 4.2, rule 3): exactly one additional TaskRequest to the
ticketing role in the New-Issue outcome, and none otherwise. -/
def escalationSends (outcome : Option BranchOutcome) (tid : Nat) (u : String) (now : Nat) :
    List (Role × TaskRequest) :=
  match outcome with
  | some .newIssue => [(Role.ticketing, mkEscalationRequest tid u now)]
  | _ => []

/- -------------------------------------------------------------------
Supported intents of the four specialists (src/agents/excel/agent.py,
src/agents/github/agent.py, src/agents/browser/agent.py,
src/agents/linear/agent.py).  The Python `supported_intents` properties
return dicts from intent name to a natural-language description used
only for prompt building; the embeddings keep the keys in source
order and elide the description prose.
------------------------------------------------------------------- -/

/-- Intent keys of `ExcelSpecialist.supported_intents`. -/
def ExcelSpecialist.supported_intents : List String :=
  ["lookup_customer", "search_customers"]

/-- Intent keys of `GitHubSupportSpecialist.supported_intents`. -/
def GitHubSupportSpecialist.supported_intents : List String :=
  ["search_bug_reports"]

/-- Intent keys of `BrowserSpecialist.supported_intents`. -/
def BrowserSpecialist.supported_intents : List String :=
  ["reproduce_issue"]

/-- Intent keys of `LinearSpecialist.supported_intents`. -/
def LinearSpecialist.supported_intents : List String :=
  ["create_bug_report", "search_issues"]

/-- The spec's fixed role-to-intent mapping (spec section 6), written
from the spec's words for comparison with the source tables. -/
def specRoleIntents : Role → List String
  | .customerData => ["lookup_customer", "search_customers"]
  | .issueSearch => ["search_bug_reports"]
  | .reproduction => ["reproduce_issue"]
  | .ticketing => ["create_bug_report", "search_issues"]

/- -------------------------------------------------------------------
Browser specialist mock tool (src/agents/browser/agent.py,
simulate_browser_reproduction).
------------------------------------------------------------------- -/

/-- JSON-decodable Python values that `json.loads` can produce for the
`steps` argument of `simulate_browser_reproduction` (JSON objects are
not modelled; they do not occur in the claims settled here). -/
inductive PyVal
  | vstr (s : String)
  | vnum (n : Int)
  | vbool (b : Bool)
  | vnull
  | vlist (l : List PyVal)

/-- Python runtime errors the reproduction tool can raise: iterating a
non-iterable step_list (TypeError), or calling `.lower()` on a
non-string element (AttributeError).  These are raised inside the
`for step in step_list` loop, outside the tool's try/except, which
guards only `json.loads`. -/
inductive PyError
  | typeError
  | attributeError
deriving DecidableEq, Repr

/-- Semantics of `for step in step_list` combined with `step.lower()`:
a list yields its elements, each of which must be a string; a string
yields its characters as one-character strings; a number, boolean or
null is not iterable. -/
def iterSteps : PyVal → Except PyError (List String)
  | .vlist l =>
      l.mapM (fun v =>
        match v with
        | .vstr s => Except.ok s
        | _ => Except.error PyError.attributeError)
  | .vstr s => .ok (s.toList.map String.singleton)
  | _ => .error .typeError

/-- The keyword list whose case-insensitive occurrence in a step marks
the issue as reproduced. -/
def reproKeywords : List String := ["export", "csv", "download"]

/-- Keywords of the interaction branch of the step loop. -/
def interactKeywords : List String := ["click", "press", "tap"]

/-- Keywords of the waiting branch of the step loop. -/
def waitKeywords : List String := ["wait", "observe"]

/-- Python's `any(kw in step_lower for kw in kws)`. -/
def kwInStep (kws : List String) (stepLower : List Char) : Bool :=
  kws.any (fun kw => strContains stepLower kw.toList)

/-- One iteration of the step loop of `simulate_browser_reproduction`:
appends the per-step observations and sets the reproduced flag when an
export/csv/download step occurs. -/
def stepUpdate (acc : List String × Bool) (step : String) : List String × Bool :=
  if kwInStep reproKeywords (lowerChars step.toList) then
    (acc.1 ++ ["Executed: " ++ step, "Spinner appeared on the button",
               "Spinner continued indefinitely — export never completed"], true)
  else if kwInStep interactKeywords (lowerChars step.toList) then
    (acc.1 ++ ["Executed: " ++ step, "Element responded to interaction"], acc.2)
  else if kwInStep waitKeywords (lowerChars step.toList) then
    (acc.1 ++ ["Executed: " ++ step, "Waited 5 seconds — no change in page state"], acc.2)
  else (acc.1 ++ ["Executed: " ++ step], acc.2)

/-- Shape of the JSON object serialized by
`simulate_browser_reproduction` on success. -/
structure ReproReport where
  reproduced : Bool
  observations : List String
  console_errors : List String
  screenshot_description : String
deriving DecidableEq, Repr

/-- The step loop of `simulate_browser_reproduction`, starting from the
initial "Navigated to url" observation with reproduced=False. -/
def reproObsRepro (url : String) (step_list : List String) : List String × Bool :=
  step_list.foldl stepUpdate (["Navigated to " ++ url], false)

/-- The console_errors of the report: the two fixed error lines iff
check_console and reproduced. -/
def consoleErrorsFor (check_console reproduced : Bool) : List String :=
  if check_console && reproduced then
    ["TimeoutError: Export query exceeded 30s limit",
     "[ExportService] Export failed: query timeout on datasets with >500 rows"]
  else []

/-- The report built after a successful step loop. -/
def reproCore (url : String) (step_list : List String) (check_console : Bool) :
    ReproReport :=
  { reproduced := (reproObsRepro url step_list).2,
    observations := (reproObsRepro url step_list).1,
    console_errors := consoleErrorsFor check_console (reproObsRepro url step_list).2,
    screenshot_description :=
      if (reproObsRepro url step_list).2 then
        "Dashboard page with export button showing infinite spinner"
      else "Page at " ++ url ++ " in normal state" }

/-- The `step_list` value after the guarded `json.loads(steps)`:
`loads = some v` models a successful decode to `v`; `loads = none`
models a ValueError (not valid JSON), caught and replaced by the
single-step list `[steps]`. -/
def stepListOf (loads : Option PyVal) (steps_raw : String) : PyVal :=
  match loads with
  | some v => v
  | none => .vlist [.vstr steps_raw]

/-- Embedding of `simulate_browser_reproduction` in
src/agents/browser/agent.py.  `steps_raw` is the raw `steps` string and
`loads` the outcome of `json.loads` on it (an external library call).
The final `json.dumps` serialization is not modelled; the report fields
are returned as a structure.  A `.error` value models the Python
TypeError/AttributeError raised by the step loop on non-iterable or
non-string steps — these escape the tool, whose try/except guards only
`json.loads`. -/
def simulate_browser_reproduction (url : String) (steps_raw : String)
    (loads : Option PyVal) (check_console : Bool) : Except PyError ReproReport :=
  match iterSteps (stepListOf loads steps_raw) with
  | .error e => .error e
  | .ok step_list => .ok (reproCore url step_list check_console)

/- -------------------------------------------------------------------
Sample fixtures used by witness theorems.
------------------------------------------------------------------- -/

/-- A successful customer-data result with the given entitlement. -/
def customerResult (t : Nat) (entitled : Bool) : TaskResult :=
  { task_id := t, status := .success, result := some (.customer entitled),
    error := none, started_at := 0, completed_at := 2000, processing_ms := 2000 }

/-- A successful issue-search result with the given match count. -/
def issuesResult (t : Nat) (matchCount : Nat) : TaskResult :=
  { task_id := t, status := .success, result := some (.issues matchCount),
    error := none, started_at := 0, completed_at := 3000, processing_ms := 3000 }

/-- Results of Scenario C: entitlement false while the issue search
found a match. -/
def sampleNotEntitledResults : RoleResults :=
  ⟨some (customerResult 1 false), some (issuesResult 2 1), none, none⟩

/-- Results of Scenario B: entitled, zero issue-search matches. -/
def sampleNewIssueResults : RoleResults :=
  ⟨some (customerResult 1 true), some (issuesResult 2 0), none, none⟩

/-- A conversation awaiting the three fan-out roles, with only the
customer-data result recorded so far. -/
def sampleConv : ConversationHandle :=
  { awaited := [Role.customerData, Role.issueSearch, Role.reproduction],
    owner := [(1, Role.customerData), (2, Role.issueSearch), (3, Role.reproduction)],
    results := ⟨some (customerResult 1 true), none, none, none⟩ }

/-- A conversation at deadline expiry: customer-data and issue-search
responded, the reproduction specialist never did (Scenario D). -/
def sampleTimeoutConv : ConversationHandle :=
  { awaited := [Role.customerData, Role.issueSearch, Role.reproduction],
    owner := [(1, Role.customerData), (2, Role.issueSearch), (3, Role.reproduction)],
    results := ⟨some (customerResult 1 true), some (issuesResult 2 0), none, none⟩ }

/-- A concrete room assignment for the fan-out roles. -/
def sampleRoomOf : Role → String
  | .customerData => "room-excel"
  | .issueSearch => "room-github"
  | .reproduction => "room-browser"
  | .ticketing => "room-linear"

/-- A transport where the send to the reproduction room fails. -/
def sampleSendOk : Role → Bool
  | .reproduction => false
  | _ => true

/- -------------------------------------------------------------------
Theorems.  Helper lemmas about the record-if-absent primitive come
first, then one theorem per claim (with witnesses).
------------------------------------------------------------------- -/

/-- Setting a role's slot makes the slot hold that result. -/
theorem RoleResults.get_set_self (m : RoleResults) (role : Role) (r : TaskResult) :
    (m.set role r).get role = some r := by
  cases role <;> rfl

/-- Setting one role's slot leaves the other slots unchanged. -/
theorem RoleResults.get_set_other (m : RoleResults) {role role' : Role} (r : TaskResult)
    (h : role' ≠ role) : (m.set role' r).get role = m.get role := by
  cases role <;> cases role' <;> first | rfl | exact absurd rfl h

/-- Recording over an occupied slot is a no-op (first result wins). -/
theorem RoleResults.record_of_some {m : RoleResults} {role : Role} {x : TaskResult}
    (h : m.get role = some x) (r : TaskResult) : m.record role r = m := by
  simp [RoleResults.record, h]

/-- Recording into an empty slot stores the result. -/
theorem RoleResults.record_get_of_none {m : RoleResults} {role : Role}
    (h : m.get role = none) (r : TaskResult) : (m.record role r).get role = some r := by
  simp [RoleResults.record, h, RoleResults.get_set_self]

/-- Recording at one role leaves the other roles' slots unchanged. -/
theorem RoleResults.record_get_other {m : RoleResults} {role role' : Role}
    (h : role' ≠ role) (r : TaskResult) :
    (m.record role' r).get role = m.get role := by
  unfold RoleResults.record
  cases hm : m.get role' with
  | some x => rfl
  | none => exact RoleResults.get_set_other m r h

/-- Recording never erases or overwrites an already-recorded result. -/
theorem RoleResults.record_get_preserve {m : RoleResults} {role' : Role} {x : TaskResult}
    (h : m.get role' = some x) (role : Role) (r : TaskResult) :
    (m.record role r).get role' = some x := by
  by_cases he : role = role'
  · subst he
    rw [RoleResults.record_of_some h r]
    exact h
  · rw [RoleResults.record_get_other he r]
    exact h

/-- Recording the same result twice is the same as recording it once. -/
theorem RoleResults.record_record (m : RoleResults) (role : Role) (r : TaskResult) :
    (m.record role r).record role r = m.record role r := by
  cases hm : m.get role with
  | some x => rw [RoleResults.record_of_some hm r, RoleResults.record_of_some hm r]
  | none => exact RoleResults.record_of_some (RoleResults.record_get_of_none hm r) r

/-- A fold of record-if-absent steps never disturbs an existing result. -/
theorem foldl_record_get_preserve (f : Role → TaskResult) (roles : List Role) :
    ∀ (m : RoleResults) {role : Role} {x : TaskResult}, m.get role = some x →
      (roles.foldl (fun acc ρ => acc.record ρ (f ρ)) m).get role = some x := by
  induction roles with
  | nil => intro m role x h; simpa using h
  | cons head rest ih =>
      intro m role x h
      rw [List.foldl_cons]
      exact ih _ (RoleResults.record_get_preserve h head _)

/-- A fold of record-if-absent steps over a role list fills every empty
slot of a listed role with that role's value. -/
theorem foldl_record_get_of_mem (f : Role → TaskResult) (roles : List Role) :
    ∀ (m : RoleResults) {role : Role}, role ∈ roles → m.get role = none →
      (roles.foldl (fun acc ρ => acc.record ρ (f ρ)) m).get role = some (f role) := by
  induction roles with
  | nil => intro m role h; simp at h
  | cons head rest ih =>
      intro m role hmem hnone
      rw [List.foldl_cons]
      by_cases he : head = role
      · subst he
        exact foldl_record_get_preserve f rest _ (RoleResults.record_get_of_none hnone _)
      · rcases List.mem_cons.mp hmem with h1 | h2
        · exact absurd h1.symm he
        · exact ih _ h2 (by rw [RoleResults.record_get_other he _]; exact hnone)

/-- After a fold of record-if-absent steps over a role list, every
listed role has some recorded result. -/
theorem foldl_record_get_isSome (f : Role → TaskResult) (roles : List Role)
    (m : RoleResults) {role : Role} (hmem : role ∈ roles) :
    ((roles.foldl (fun acc ρ => acc.record ρ (f ρ)) m).get role).isSome = true := by
  cases h : m.get role with
  | some x => rw [foldl_record_get_preserve f roles m h]; rfl
  | none => rw [foldl_record_get_of_mem f roles m hmem h]; rfl

/-- The empty result map has no entry for any role. -/
theorem emptyResults_get (role : Role) : emptyResults.get role = none := by
  cases role <;> rfl

/-- C1: whenever the recorded customer-data result carries
entitlement=false, `resolve` returns Not-Entitled, whatever the
issue-search and reproduction slots hold (the Not-Entitled rule is
tested first in the fixed priority order). -/
theorem resolve_not_entitled_first (m : RoleResults)
    (h : entitlementOf m.customerData = some false) :
    resolve m = some BranchOutcome.notEntitled := by
  simp [resolve, h]

/-- C1 witness: entitlement=false combined with an issue-search match
still yields Not-Entitled. -/
theorem resolve_not_entitled_first_witness :
    entitlementOf sampleNotEntitledResults.customerData = some false ∧
    issueMatchesOf sampleNotEntitledResults.issueSearch = some 1 ∧
    resolve sampleNotEntitledResults = some BranchOutcome.notEntitled :=
  ⟨rfl, rfl, resolve_not_entitled_first sampleNotEntitledResults rfl⟩

/-- C2: entitled with zero issue-search matches resolves to New-Issue,
and the dispatcher then sends exactly one escalation TaskRequest to the
ticketing role with intent create_bug_report, a non-empty description
containing the original user_request text, and the verbatim request
echoed; Not-Entitled and Known-Issue outcomes send no escalation. -/
theorem resolve_new_issue_escalation (m : RoleResults) (tid : Nat) (u : String) (now : Nat)
    (hent : entitlementOf m.customerData = some true)
    (hzero : issueMatchesOf m.issueSearch = some 0) :
    resolve m = some BranchOutcome.newIssue ∧
    escalationSends (resolve m) tid u now = [(Role.ticketing, mkEscalationRequest tid u now)] ∧
    (mkEscalationRequest tid u now).intent = "create_bug_report" ∧
    (mkEscalationRequest tid u now).user_request = u ∧
    descriptionOf (mkEscalationRequest tid u now) ≠ "" ∧
    u.toList <:+: (descriptionOf (mkEscalationRequest tid u now)).toList ∧
    (∀ m2 : RoleResults,
      resolve m2 = some BranchOutcome.notEntitled ∨
        resolve m2 = some BranchOutcome.knownIssue →
      escalationSends (resolve m2) tid u now = []) := by
  have h1 : resolve m = some BranchOutcome.newIssue := by simp [resolve, hent, hzero]
  have hdesc : descriptionOf (mkEscalationRequest tid u now)
      = "Customer-reported bug: " ++ u := rfl
  refine ⟨h1, by rw [h1]; rfl, rfl, rfl, ?_, ?_, ?_⟩
  · rw [hdesc]
    intro he
    have hlen := congrArg String.length he
    rw [String.length_append, String.length_empty] at hlen
    have h23 : "Customer-reported bug: ".length = 23 := by decide
    omega
  · rw [hdesc]
    show u.toList <:+: ("Customer-reported bug: " ++ u).data
    rw [String.data_append]
    exact (List.suffix_append _ _).isInfix
  · intro m2 h2
    rcases h2 with h2 | h2 <;> rw [h2] <;> rfl

/-- C2 witness: Scenario B results (entitled, zero matches) produce the
single ticketing escalation. -/
theorem resolve_new_issue_escalation_witness :
    entitlementOf sampleNewIssueResults.customerData = some true ∧
    issueMatchesOf sampleNewIssueResults.issueSearch = some 0 ∧
    escalationSends (resolve sampleNewIssueResults) 4 "The export button is broken" 0
      = [(Role.ticketing, mkEscalationRequest 4 "The export button is broken" 0)] :=
  ⟨rfl, rfl,
    (resolve_new_issue_escalation sampleNewIssueResults 4 "The export button is broken" 0
      rfl rfl).2.1⟩

/-- Unfolding of `onResult` when the task id has an owning role. -/
theorem onResult_of_owner {conv : ConversationHandle} {r : TaskResult} {role : Role}
    (h : ownerOf conv r.task_id = some role) :
    onResult conv r = { conv with results := conv.results.record role r } := by
  unfold onResult
  rw [h]

/-- C4: delivering the same TaskResult to `onResult` twice leaves the
conversation exactly as after the first delivery, and a delivery never
disturbs any already-recorded per-role result (first result wins). -/
theorem onResult_idempotent (conv : ConversationHandle) (r : TaskResult) :
    onResult (onResult conv r) r = onResult conv r ∧
    (∀ role x, conv.results.get role = some x →
      (onResult conv r).results.get role = some x) := by
  constructor
  · cases h : ownerOf conv r.task_id with
    | none => simp [onResult, h]
    | some role =>
        have h2 : ownerOf { conv with results := conv.results.record role r } r.task_id
            = some role := h
        rw [onResult_of_owner h, onResult_of_owner h2]
        congr 1
        exact RoleResults.record_record conv.results role r
  · intro role' x hx
    cases h : ownerOf conv r.task_id with
    | none => simpa [onResult, h] using hx
    | some role =>
        simp only [onResult, h]
        exact RoleResults.record_get_preserve hx role r

/-- C4 witness: a duplicate delivery of the issue-search result leaves
the conversation unchanged, and the earlier customer-data result stays
recorded. -/
theorem onResult_idempotent_witness :
    onResult (onResult sampleConv (issuesResult 2 0)) (issuesResult 2 0)
      = onResult sampleConv (issuesResult 2 0) ∧
    (onResult sampleConv (issuesResult 2 0)).results.get Role.customerData
      = some (customerResult 1 true) :=
  ⟨(onResult_idempotent sampleConv (issuesResult 2 0)).1,
   (onResult_idempotent sampleConv (issuesResult 2 0)).2 Role.customerData
     (customerResult 1 true) rfl⟩

/-- C5: when the conversation deadline expires, `expire` issues no
requests (no automatic retries), leaves every already-received result
in place, marks every awaited role lacking a result as a
status=error/TIMEOUT result, and makes the completion predicate true so
branch resolution proceeds with whatever is available — the
investigation never stays incomplete waiting for a non-responder. -/
theorem timeout_resolution_proceeds (conv : ConversationHandle) :
    (expire conv).2 = [] ∧
    complete (expire conv).1 = true ∧
    (∀ role, role ∈ conv.awaited → conv.results.get role = none →
      (expire conv).1.results.get role
        = some (errorResult (taskIdFor conv role) "TIMEOUT" timeoutMessage)) ∧
    (∀ role x, conv.results.get role = some x →
      (expire conv).1.results.get role = some x) ∧
    (∀ t, (errorResult t "TIMEOUT" timeoutMessage).status = TaskStatus.error ∧
      (errorResult t "TIMEOUT" timeoutMessage).error
        = some { code := "TIMEOUT", message := timeoutMessage }) := by
  refine ⟨rfl, ?_, ?_, ?_, fun t => ⟨rfl, rfl⟩⟩
  · rw [complete, List.all_eq_true]
    intro role hmem
    exact foldl_record_get_isSome _ conv.awaited conv.results hmem
  · intro role hmem hnone
    exact foldl_record_get_of_mem _ conv.awaited conv.results hmem hnone
  · intro role x hx
    exact foldl_record_get_preserve _ conv.awaited conv.results hx

/-- C5 witness: Scenario D — the reproduction specialist never answers;
at expiry it is marked TIMEOUT while the two received results survive,
and the conversation is complete. -/
theorem timeout_resolution_proceeds_witness :
    Role.reproduction ∈ sampleTimeoutConv.awaited ∧
    (expire sampleTimeoutConv).1.results.get Role.reproduction
      = some (errorResult (taskIdFor sampleTimeoutConv Role.reproduction)
          "TIMEOUT" timeoutMessage) ∧
    complete (expire sampleTimeoutConv).1 = true :=
  ⟨by decide,
   (timeout_resolution_proceeds sampleTimeoutConv).2.2.1 Role.reproduction (by decide) rfl,
   (timeout_resolution_proceeds sampleTimeoutConv).2.1⟩

/-- C6: a TaskResult produced by the workers' timing contract has
`processing_ms` equal to `completed_at - started_at` in milliseconds,
hence within the allowed clock-rounding tolerance of 1 ms. -/
theorem processing_ms_identity (t : Nat) (status : TaskStatus) (payload : Option Payload)
    (err : Option TaskError) (s c : Nat) (h : s ≤ c) :
    (mkTimedResult t status payload err s c).processing_ms
        = (mkTimedResult t status payload err s c).completed_at
          - (mkTimedResult t status payload err s c).started_at ∧
    (((mkTimedResult t status payload err s c).processing_ms : Int)
        - (((mkTimedResult t status payload err s c).completed_at : Int)
            - ((mkTimedResult t status payload err s c).started_at : Int))).natAbs ≤ 1 := by
  refine ⟨rfl, ?_⟩
  simp only [mkTimedResult]
  omega

/-- C6 witness: a worker that started at 1000 ms and completed at
3500 ms reports processing_ms satisfying the identity. -/
theorem processing_ms_identity_witness :
    (1000 : Nat) ≤ 3500 ∧
    (mkTimedResult 7 TaskStatus.success (some (Payload.repro true)) none 1000 3500).processing_ms
      = (mkTimedResult 7 TaskStatus.success (some (Payload.repro true)) none 1000 3500).completed_at
        - (mkTimedResult 7 TaskStatus.success (some (Payload.repro true)) none 1000 3500).started_at :=
  ⟨by decide,
   (processing_ms_identity 7 TaskStatus.success (some (Payload.repro true)) none 1000 3500
      (by decide)).1⟩

/-- C7: each specialist's supported-intent table equals the spec's
fixed role-to-intent mapping: ExcelAgent exactly lookup_customer and
search_customers, GitHubSupportAgent exactly search_bug_reports,
BrowserAgent exactly reproduce_issue, LinearAgent exactly
create_bug_report and search_issues. -/
theorem supported_intents_match_spec :
    ExcelSpecialist.supported_intents = specRoleIntents Role.customerData ∧
    GitHubSupportSpecialist.supported_intents = specRoleIntents Role.issueSearch ∧
    BrowserSpecialist.supported_intents = specRoleIntents Role.reproduction ∧
    LinearSpecialist.supported_intents = specRoleIntents Role.ticketing :=
  ⟨rfl, rfl, rfl, rfl⟩

/-- C8: `specialist_room_for` routes by case-insensitive substring
containment tested in the fixed order excel, github, browser, linear:
the excel room if the lowercased name contains "excel"; otherwise the
github room if it contains "github"; otherwise the browser room if it
contains "browser"; otherwise the linear room if it contains "linear";
and `none` when none of the four keywords occurs. -/
theorem specialist_room_for_keyword_order
    (cfg : SupportRoomConfig) (s : String) :
    (strContains (lowerChars s.toList) "excel".toList = true →
       cfg.specialist_room_for s = some cfg.excel_room_id) ∧
    (strContains (lowerChars s.toList) "excel".toList = false →
     strContains (lowerChars s.toList) "github".toList = true →
       cfg.specialist_room_for s = some cfg.github_room_id) ∧
    (strContains (lowerChars s.toList) "excel".toList = false →
     strContains (lowerChars s.toList) "github".toList = false →
     strContains (lowerChars s.toList) "browser".toList = true →
       cfg.specialist_room_for s = some cfg.browser_room_id) ∧
    (strContains (lowerChars s.toList) "excel".toList = false →
     strContains (lowerChars s.toList) "github".toList = false →
     strContains (lowerChars s.toList) "browser".toList = false →
     strContains (lowerChars s.toList) "linear".toList = true →
       cfg.specialist_room_for s = some cfg.linear_room_id) ∧
    (strContains (lowerChars s.toList) "excel".toList = false →
     strContains (lowerChars s.toList) "github".toList = false →
     strContains (lowerChars s.toList) "browser".toList = false →
     strContains (lowerChars s.toList) "linear".toList = false →
       cfg.specialist_room_for s = none) := by
  refine ⟨?_, ?_, ?_, ?_, ?_⟩ <;>
    · intros
      simp_all [SupportRoomConfig.specialist_room_for]

/-- C8 witness: a name containing both "github" and "excel" resolves to
the excel room, the first matching keyword in the fixed order. -/
theorem specialist_room_for_keyword_order_witness :
    (SupportRoomConfig.mk "room-user" "room-excel" "room-github"
        "room-browser" "room-linear").specialist_room_for "GitHub-Excel-Agent"
      = some "room-excel" := by
  exact (specialist_room_for_keyword_order
    (SupportRoomConfig.mk "room-user" "room-excel" "room-github"
      "room-browser" "room-linear") "GitHub-Excel-Agent").1 (by decide)

/-- C10: for every query and limit, `search_linear_issues` returns empty
matches with message "No matching issues found" and the echoed query —
the ticketing role's search intent can never report a match. -/
theorem search_linear_issues_always_empty (query : String) (limit : Nat) :
    (search_linear_issues query limit).issue_matches = [] ∧
    (search_linear_issues query limit).message = "No matching issues found" ∧
    (search_linear_issues query limit).query = query :=
  ⟨rfl, rfl, rfl⟩

/-- Fan-out sends one request per listed role. -/
theorem dispatchSends_length (roomOf : Role → String) (email keywords text : String)
    (now : Nat) (i : Nat) (roles : List Role) :
    (dispatchSends roomOf email keywords text now i roles).length = roles.length := by
  induction roles generalizing i with
  | nil => rfl
  | cons head rest ih => simp [dispatchSends, ih]

/-- The task ids minted during fan-out are the consecutive counter
values, hence pairwise distinct. -/
theorem dispatchSends_map_taskId (roomOf : Role → String) (email keywords text : String)
    (now : Nat) (i : Nat) (roles : List Role) :
    ((dispatchSends roomOf email keywords text now i roles).map (fun s => s.2.2)).map
        TaskRequest.task_id = List.range' i roles.length := by
  induction roles generalizing i with
  | nil => rfl
  | cons head rest ih => simp [dispatchSends, mkRequest, List.range', ih]

/-- Fan-out targets exactly the listed roles, in order. -/
theorem dispatchSends_map_role (roomOf : Role → String) (email keywords text : String)
    (now : Nat) (i : Nat) (roles : List Role) :
    (dispatchSends roomOf email keywords text now i roles).map (fun s => s.1) = roles := by
  induction roles generalizing i with
  | nil => rfl
  | cons head rest ih => simp [dispatchSends, ih]

/-- Every fan-out send goes to the room assigned to its role. -/
theorem dispatchSends_room (roomOf : Role → String) (email keywords text : String)
    (now : Nat) (i : Nat) (roles : List Role) (s : Role × String × TaskRequest)
    (hmem : s ∈ dispatchSends roomOf email keywords text now i roles) :
    s.2.1 = roomOf s.1 := by
  induction roles generalizing i with
  | nil => simp [dispatchSends] at hmem
  | cons head rest ih =>
      rcases List.mem_cons.mp hmem with h1 | h1
      · subst h1; rfl
      · exact ih _ h1

/-- The send-failure recording pass never disturbs an existing result. -/
theorem dispatchResults_get_preserve (sendOk : Role → Bool) (roles : List Role) :
    ∀ (i : Nat) (m : RoleResults) {role : Role} {x : TaskResult}, m.get role = some x →
      (dispatchResults sendOk i roles m).get role = some x := by
  induction roles with
  | nil => intro i m role x h; exact h
  | cons head rest ih =>
      intro i m role x h
      simp only [dispatchResults]
      by_cases hs : sendOk head
      · rw [if_pos hs]; exact ih _ _ h
      · rw [if_neg hs]; exact ih _ _ (RoleResults.record_get_preserve h head _)

/-- A listed role whose send fails ends up with a recorded SEND_FAILED
error result. -/
theorem dispatchResults_get_of_sendFail (sendOk : Role → Bool) {role : Role}
    (hs : sendOk role = false) (roles : List Role) (hmem : role ∈ roles) :
    ∀ (i : Nat) (m : RoleResults), m.get role = none →
      ∃ t, (dispatchResults sendOk i roles m).get role
        = some (errorResult t "SEND_FAILED" sendFailMessage) := by
  induction roles with
  | nil => simp at hmem
  | cons head rest ih =>
      intro i m hnone
      simp only [dispatchResults]
      by_cases he : head = role
      · subst he
        rw [if_neg (by simp [hs])]
        exact ⟨i, dispatchResults_get_preserve sendOk rest _ _
          (RoleResults.record_get_of_none hnone _)⟩
      · have hmem' : role ∈ rest := by
          rcases List.mem_cons.mp hmem with h1 | h1
          · exact absurd h1.symm he
          · exact h1
        by_cases hsh : sendOk head
        · rw [if_pos hsh]; exact ih hmem' _ _ hnone
        · rw [if_neg hsh]
          exact ih hmem' _ _ (by rw [RoleResults.record_get_other he _]; exact hnone)

/-- C3: a dispatch over three distinct roles produces exactly 3
TaskRequests with pairwise-distinct task ids, one per role, each sent
to that role's own room; the dispatch trace holds only send events (all
sends happen before any waiting — fan-out before fan-in), and a role
whose send fails gets a recorded status=error SEND_FAILED result,
the same shape an error-returning role would record. -/
theorem dispatch_fanout (roomOf : Role → String) (sendOk : Role → Bool) (roles : List Role)
    (email keywords text : String) (now : Nat)
    (hnd : roles.Nodup) (hlen : roles.length = 3) :
    (dispatch roomOf sendOk roles email keywords text now).requests.length = 3 ∧
    ((dispatch roomOf sendOk roles email keywords text now).requests.map
        TaskRequest.task_id).Nodup ∧
    (dispatch roomOf sendOk roles email keywords text now).requests.Nodup ∧
    (dispatch roomOf sendOk roles email keywords text now).sends.map (fun s => s.1)
      = roles ∧
    (∀ s ∈ (dispatch roomOf sendOk roles email keywords text now).sends,
      s.2.1 = roomOf s.1) ∧
    (dispatch roomOf sendOk roles email keywords text now).trace.all
        DispatchEvent.isSend = true ∧
    (∀ role ∈ roles, sendOk role = false →
      ∃ t, (dispatch roomOf sendOk roles email keywords text now).conv.results.get role
          = some (errorResult t "SEND_FAILED" sendFailMessage) ∧
        (errorResult t "SEND_FAILED" sendFailMessage).status = TaskStatus.error) := by
  have hreq : (dispatch roomOf sendOk roles email keywords text now).requests
      = (dispatchSends roomOf email keywords text now 0 roles).map (fun s => s.2.2) := rfl
  have hsends : (dispatch roomOf sendOk roles email keywords text now).sends
      = dispatchSends roomOf email keywords text now 0 roles := rfl
  have hids : (dispatch roomOf sendOk roles email keywords text now).requests.map
      TaskRequest.task_id = List.range' 0 roles.length := by
    rw [hreq, dispatchSends_map_taskId]
  have hidnd : ((dispatch roomOf sendOk roles email keywords text now).requests.map
      TaskRequest.task_id).Nodup := by
    rw [hids]; exact List.nodup_range' _ _
  refine ⟨?_, hidnd, List.Nodup.of_map TaskRequest.task_id hidnd, ?_, ?_, ?_, ?_⟩
  · rw [hreq, List.length_map, dispatchSends_length, hlen]
  · rw [hsends, dispatchSends_map_role]
  · intro s hmem
    rw [hsends] at hmem
    exact dispatchSends_room roomOf email keywords text now 0 roles s hmem
  · have htr : (dispatch roomOf sendOk roles email keywords text now).trace
        = (dispatchSends roomOf email keywords text now 0 roles).map
            (fun s => DispatchEvent.send s.1 s.2.1 s.2.2) := rfl
    rw [htr, List.all_eq_true]
    intro e he
    rcases List.mem_map.mp he with ⟨s, _, rfl⟩
    rfl
  · intro role hmem hfail
    rcases dispatchResults_get_of_sendFail sendOk hfail roles hmem 0 emptyResults
        (emptyResults_get role) with ⟨t, ht⟩
    exact ⟨t, ht, rfl⟩

/-- C3 witness: dispatching the three fan-out roles with the
reproduction-room send failing yields 3 requests and a recorded
SEND_FAILED error under the reproduction role. -/
theorem dispatch_fanout_witness :
    (dispatch sampleRoomOf sampleSendOk
        [Role.customerData, Role.issueSearch, Role.reproduction]
        "sarah@acme.com" "export csv" "The export button is broken" 0).requests.length
      = 3 ∧
    (∃ t, (dispatch sampleRoomOf sampleSendOk
          [Role.customerData, Role.issueSearch, Role.reproduction]
          "sarah@acme.com" "export csv" "The export button is broken" 0).conv.results.get
            Role.reproduction
        = some (errorResult t "SEND_FAILED" sendFailMessage) ∧
      (errorResult t "SEND_FAILED" sendFailMessage).status = TaskStatus.error) :=
  ⟨(dispatch_fanout sampleRoomOf sampleSendOk
      [Role.customerData, Role.issueSearch, Role.reproduction]
      "sarah@acme.com" "export csv" "The export button is broken" 0
      (by decide) (by decide)).1,
   (dispatch_fanout sampleRoomOf sampleSendOk
      [Role.customerData, Role.issueSearch, Role.reproduction]
      "sarah@acme.com" "export csv" "The export button is broken" 0
      (by decide) (by decide)).2.2.2.2.2.2 Role.reproduction (by decide) (by decide)⟩

/-- The reproduced flag after the step loop is the initial flag or-ed
with whether any step contains a reproduction keyword. -/
theorem foldl_stepUpdate_snd (l : List String) :
    ∀ acc : List String × Bool,
      (l.foldl stepUpdate acc).2
        = (acc.2 || l.any (fun step => kwInStep reproKeywords (lowerChars step.toList))) := by
  induction l with
  | nil => intro acc; simp
  | cons head rest ih =>
      intro acc
      rw [List.foldl_cons, ih]
      have hsnd : (stepUpdate acc head).2
          = (acc.2 || kwInStep reproKeywords (lowerChars head.toList)) := by
        unfold stepUpdate
        by_cases h1 : kwInStep reproKeywords (lowerChars head.toList)
        · rw [if_pos h1, h1, Bool.or_true]
        · rw [Bool.not_eq_true] at h1
          rw [if_neg (by rw [h1]; exact Bool.false_ne_true), h1, Bool.or_false]
          by_cases h2 : kwInStep interactKeywords (lowerChars head.toList)
          · rw [if_pos h2]
          · rw [if_neg h2]
            by_cases h3 : kwInStep waitKeywords (lowerChars head.toList)
            · rw [if_pos h3]
            · rw [if_neg h3]
      rw [hsnd, List.any_cons, Bool.or_assoc]

/-- The console_errors list is non-empty exactly when both flags hold. -/
theorem consoleErrorsFor_ne_nil (c r : Bool) :
    consoleErrorsFor c r ≠ [] ↔ (c = true ∧ r = true) := by
  cases c <;> cases r <;> simp [consoleErrorsFor]

/-- C9 counterexample: the claim promises a returned JSON report for
every steps argument, but for steps="3" — a valid-JSON string decoding
to the number 3 — the tool raises TypeError: the `for step in
step_list` loop iterates a non-iterable int, and the try/except guards
only `json.loads`. -/
theorem simulate_browser_reproduction_raises_on_number :
    simulate_browser_reproduction "http://localhost:8888/mock_app.html" "3"
      (some (PyVal.vnum 3)) true = Except.error PyError.typeError := rfl

/-- C9 (amended): for every url and flag, and every steps argument
whose decoded step list is usable (a list of strings or a string — in
particular any string that is not valid JSON, which falls back to the
single-step list [steps]), the tool returns a report without raising;
its reproduced field is true iff at least one step contains "export",
"csv" or "download" case-insensitively, and console_errors is non-empty
iff check_console is true and reproduced is true. -/
theorem simulate_browser_reproduction_spec (url steps_raw : String)
    (loads : Option PyVal) (check_console : Bool) (l : List String)
    (h : iterSteps (stepListOf loads steps_raw) = Except.ok l) :
    simulate_browser_reproduction url steps_raw loads check_console
      = Except.ok (reproCore url l check_console) ∧
    ((reproCore url l check_console).reproduced = true ↔
      ∃ step ∈ l, kwInStep reproKeywords (lowerChars step.toList) = true) ∧
    ((reproCore url l check_console).console_errors ≠ [] ↔
      (check_console = true ∧ (reproCore url l check_console).reproduced = true)) ∧
    (∀ raw : String, iterSteps (stepListOf none raw) = Except.ok [raw]) := by
  have hrep : (reproCore url l check_console).reproduced
      = l.any (fun step => kwInStep reproKeywords (lowerChars step.toList)) := by
    show (reproObsRepro url l).2 = _
    rw [reproObsRepro, foldl_stepUpdate_snd]
    simp
  refine ⟨?_, ?_, ?_, fun raw => rfl⟩
  · unfold simulate_browser_reproduction
    rw [h]
  · rw [hrep]
    simp
  · exact consoleErrorsFor_ne_nil _ _

/-- C9 witness: an export step decoded from a JSON list of strings
yields a returned report with reproduced=true and console errors. -/
theorem simulate_browser_reproduction_spec_witness :
    iterSteps (stepListOf (some (PyVal.vlist [PyVal.vstr "Click the Export to CSV button"]))
        "steps-json") = Except.ok ["Click the Export to CSV button"] ∧
    simulate_browser_reproduction "http://localhost:8888/mock_app.html" "steps-json"
        (some (PyVal.vlist [PyVal.vstr "Click the Export to CSV button"])) true
      = Except.ok (reproCore "http://localhost:8888/mock_app.html"
          ["Click the Export to CSV button"] true) :=
  ⟨rfl,
   (simulate_browser_reproduction_spec "http://localhost:8888/mock_app.html" "steps-json"
      (some (PyVal.vlist [PyVal.vstr "Click the Export to CSV button"])) true
      ["Click the Export to CSV button"] rfl).1⟩
